import Mathlib

/-!
Verification of `src/lsc_user.c` (gvmd LSC user credentials package
generation).  The C code is shallowly embedded as pure state-passing
functions: the filesystem is a list of directories plus a list of
(path, contents) files, and every fallible external effect (mkdtemp,
g_spawn, g_file_set_contents, gvm_file_copy, gvm_file_remove_recurse,
fopen/fclose) is resolved by an `Env` oracle, so that theorems quantify
over every possible outcome of the external world.  Each embedded
function records the externally visible actions it performs in an event
trace.  Diagnostic logging is modelled where it carries verification
content (the key-generation command redaction); elsewhere `g_debug`
calls are pure output and are omitted.
-/

set_option autoImplicit false

namespace GvmdLsc

/-- One externally visible action of the pipeline, in the order performed
(traces are kept newest-first). -/
inductive Event where
  | mkdtempOk : String → Event
  | mkdirP : String → Event
  | fileSet : String → Event
  | fileCopy : String → String → Event
  | fileRead : String → Event
  | fileWrite : String → Event
  | spawnCmd : String → Event
  | spawn : String → List String → Event
  | rmRecurse : String → Event
deriving DecidableEq

/-- Outcome of one `g_spawn_sync` / `g_spawn_command_line_sync` call, as
chosen by the environment: whether the spawn itself succeeded, the raw
wait status of the child, the GError message (set on spawn failure),
captured stdout/stderr, and the files the external tool wrote. -/
structure SpawnResult where
  spawned : Bool
  status : Nat
  errMsg : Option String
  outS : Option String
  errS : Option String
  writes : List (String × String)
deriving DecidableEq

/-- The external world: outcomes of every fallible primitive the C code
calls.  `mkdtemp` is indexed by the number of prior `mkdtemp` calls. -/
structure Env where
  mkdtemp : Nat → Option String
  mkdirOk : String → Bool
  fopenOk : String → Bool
  fcloseOk : String → Bool
  copyOk : String → String → Bool
  setOk : String → Bool
  removeOk : String → Bool
  spawnCmd : String → SpawnResult
  spawnArgv : String → List String → SpawnResult

/-- Filesystem model: the set of scratch directories in existence and the
regular files (path, contents). -/
structure FS where
  dirs : List String
  files : List (String × String)
deriving DecidableEq

/-- `leadsWith a b` is true when `a` is a prefix of the character list `b`. -/
def leadsWith : List Char → List Char → Bool
  | [], _ => true
  | _ :: _, [] => false
  | a :: as, b :: bs => a == b && leadsWith as bs

/-- `strEndsWith p q` is true when the string `p` ends with `q`. -/
def strEndsWith (p q : String) : Bool :=
  leadsWith q.data.reverse p.data.reverse

/-- First-match association lookup on the file list. -/
def lookupFileAux : List (String × String) → String → Option String
  | [], _ => none
  | (q, c) :: t, p => if q = p then some c else lookupFileAux t p

def FS.lookupFile (fs : FS) (p : String) : Option String :=
  lookupFileAux fs.files p

def FS.setFile (fs : FS) (p c : String) : FS :=
  { fs with files := (p, c) :: fs.files }

/-- Recursive removal of a directory: the directory itself and every file
whose path lies under it disappear. -/
def FS.removeRecurse (fs : FS) (d : String) : FS :=
  { dirs := fs.dirs.filter (fun x => !(x == d)),
    files := fs.files.filter (fun pc => !(leadsWith (d ++ "/").data pc.1.data)) }

/-- Program state threaded through the embedding: filesystem, number of
`mkdtemp` calls made so far, event trace (newest first) and diagnostic
log (newest first). -/
structure St where
  fs : FS
  calls : Nat
  trace : List Event
  log : List String
deriving DecidableEq

def initSt : St := ⟨⟨[], []⟩, 0, [], []⟩

def St.addEvent (st : St) (e : Event) : St :=
  { st with trace := e :: st.trace }

def St.logAdd (st : St) (s : String) : St :=
  { st with log := s :: st.log }

/-! ## Wait-status classification (glibc `WIFEXITED` / `WEXITSTATUS`) -/

/-- glibc: `WIFEXITED(s)` is `(s & 0x7f) == 0`. -/
def WIFEXITED (s : Nat) : Bool := s % 128 == 0

/-- glibc: `WEXITSTATUS(s)` is `(s & 0xff00) >> 8`. -/
def WEXITSTATUS (s : Nat) : Nat := s / 256 % 256

/-- The `exit_status` variable observed by the C code: it is initialised
to 0 and only written when the spawn itself succeeded. -/
def exitStatusOf (r : SpawnResult) : Nat :=
  if r.spawned then r.status else 0

/-- The failure condition repeated verbatim at each of the four call
sites: `(spawn == FALSE) || (WIFEXITED (s) == 0) || WEXITSTATUS (s)`. -/
def spawn_failed (r : SpawnResult) : Bool :=
  !r.spawned || !(WIFEXITED (exitStatusOf r)) || (WEXITSTATUS (exitStatusOf r) != 0)

/-! ## Path helpers (glib semantics, restricted to separator-containing,
non-root paths as used by this file) -/

/-- `g_path_get_dirname`: everything before the last separator, `"."`
when the path has no separator. -/
def g_path_get_dirname (p : String) : String :=
  match p.data.reverse.dropWhile (fun c => c != '/') with
  | [] => "."
  | _ :: tl => String.mk tl.reverse

/-- `g_build_filename` for two components. -/
def g_build_filename (a b : String) : String :=
  a ++ "/" ++ b

/-- Build-time configured data directory (`GVM_DATA_DIR`). -/
def GVM_DATA_DIR : String := "/usr/local/share/gvm"

/-! ## Primitive operations -/

/-- `mkdtemp`: the environment either refuses or hands out a directory
name, which comes into existence. -/
def mkdtemp (env : Env) (st : St) : Option String × St :=
  match env.mkdtemp st.calls with
  | some d =>
      (some d,
        { st with
            fs := { st.fs with dirs := d :: st.fs.dirs },
            calls := st.calls + 1,
            trace := Event.mkdtempOk d :: st.trace })
  | none => (none, { st with calls := st.calls + 1 })

/-- `g_file_set_contents`. -/
def g_file_set_contents (env : Env) (path contents : String) (st : St) : Bool × St :=
  if env.setOk path then
    (true, { st with
               fs := st.fs.setFile path contents,
               trace := Event.fileSet path :: st.trace })
  else (false, st)

/-- `g_file_get_contents`: succeeds exactly when the file exists, and
returns its exact bytes. -/
def g_file_get_contents (path : String) (st : St) : Option String × St :=
  match st.fs.lookupFile path with
  | some c => (some c, { st with trace := Event.fileRead path :: st.trace })
  | none => (none, st)

/-- `gvm_file_copy`: needs a readable source and a writable destination. -/
def gvm_file_copy (env : Env) (src dst : String) (st : St) : Bool × St :=
  match st.fs.lookupFile src with
  | some c =>
      if env.copyOk src dst then
        (true, { st with
                   fs := st.fs.setFile dst c,
                   trace := Event.fileCopy src dst :: st.trace })
      else (false, st)
  | none => (false, st)

/-- `gvm_file_remove_recurse`: returns 0 on success; the removal attempt
is always recorded. -/
def gvm_file_remove_recurse (env : Env) (d : String) (st : St) : Int × St :=
  if env.removeOk d then
    (0, { st with
            fs := st.fs.removeRecurse d,
            trace := Event.rmRecurse d :: st.trace })
  else (-1, { st with trace := Event.rmRecurse d :: st.trace })

/-- `g_spawn_command_line_sync`: the tool's file writes land on disk when
the process actually ran. -/
def g_spawn_command_line_sync (env : Env) (command : String) (st : St) :
    SpawnResult × St :=
  let r := env.spawnCmd command
  (r, { st with
          fs := if r.spawned then
                  r.writes.foldl (fun f pc => f.setFile pc.1 pc.2) st.fs
                else st.fs,
          trace := Event.spawnCmd command :: st.trace })

/-- `g_spawn_sync` with a working directory and argument vector. -/
def g_spawn_sync (env : Env) (cwd : String) (argv : List String) (st : St) :
    SpawnResult × St :=
  let r := env.spawnArgv cwd argv
  (r, { st with
          fs := if r.spawned then
                  r.writes.foldl (fun f pc => f.setFile pc.1 pc.2) st.fs
                else st.fs,
          trace := Event.spawn cwd argv :: st.trace })

/-! ## Key creation -/

/-- The command string built by `g_strconcat` in `create_ssh_key`. -/
def ssh_keygen_command (privpath comment passphrase : String) : String :=
  "ssh-keygen -t rsa -f " ++ privpath ++ " -C \"" ++ comment ++
    "\" -P \"" ++ passphrase ++ "\""

/-- `create_ssh_key`: sanity checks, `g_mkdir_with_parents` on the key
directory, then one `ssh-keygen` invocation classified by
`spawn_failed`.  The debug line printed before spawning replaces the
passphrase with `"********"`. -/
def create_ssh_key (env : Env) (comment passphrase privpath : String) (st : St) :
    Int × St :=
  if comment = "" then
    (-1, st.logAdd "create_ssh_key: comment must be set")
  else if passphrase.length < 5 then
    (-1, st.logAdd "create_ssh_key: password must be longer than 4 characters")
  else
    let dir := g_path_get_dirname privpath
    if !(env.mkdirOk dir) then
      (-1, st.logAdd ("create_ssh_key: failed to access " ++ dir))
    else
      let st := st.addEvent (Event.mkdirP dir)
      let command := ssh_keygen_command privpath comment passphrase
      let st := st.logAdd ("command: ssh-keygen -t rsa -f " ++ privpath ++
        " -C \"" ++ comment ++ "\" -P \"********\"")
      let (r, st) := g_spawn_command_line_sync env command st
      if spawn_failed r then
        let es := exitStatusOf r
        let st := st.logAdd (match r.errMsg with
          | some m => "create_ssh_key: failed to create private key: " ++ m ++ "\n"
          | none => "create_ssh_key: failed to create private key\n")
        let st := st.logAdd ("create_ssh_key: key-gen failed with " ++ toString es ++
          " (WIF " ++ toString (if WIFEXITED es then 1 else 0) ++
          ", WEX " ++ toString (WEXITSTATUS es) ++ ").\n")
        let st := st.logAdd ("create_ssh_key: stdout: " ++
          (match r.outS with | some s => s | none => "(null)"))
        let st := st.logAdd ("create_ssh_key: stderr: " ++
          (match r.errS with | some s => s | none => "(null)"))
        (-1, st)
      else (0, st)

/-- `lsc_user_keys_create`: make a key workspace, create the key inside
it, read the private key back, and remove the workspace on every exit
path (the `free_exit` label). -/
def lsc_user_keys_create (env : Env) (password : String) (st : St) :
    (Int × Option String) × St :=
  match mkdtemp env st with
  | (none, st) => ((-1, none), st)
  | (some key_dir, st) =>
    let key_path := g_build_filename key_dir "key"
    let (r, st) := create_ssh_key env "Key generated by GVM" password key_path st
    if r != 0 then
      let st := (gvm_file_remove_recurse env key_dir st).2
      ((-1, none), st)
    else
      let (c, st) := g_file_get_contents key_path st
      match c with
      | none =>
        let st := (gvm_file_remove_recurse env key_dir st).2
        ((-1, none), st)
      | some k =>
        let st := (gvm_file_remove_recurse env key_dir st).2
        ((0, some k), st)

/-! ## RPM package generation -/

/-- `lsc_user_rpm_create`: staging workspace, copy of the public key to
`<tmpdir>/<username>.pub`, one invocation of the RPM creator script with
the staging directory as working directory, then removal of the staging
directory (a removal failure downgrades a successful build).  Note that
the early return taken when `gvm_file_copy` fails does not remove the
staging directory, exactly as in the C code. -/
def lsc_user_rpm_create (env : Env) (username public_key_path to_filename : String)
    (st : St) : Bool × St :=
  match mkdtemp env st with
  | (none, st) => (false, st)
  | (some tmpdir, st) =>
    let pubkey_basename := username ++ ".pub"
    let new_pubkey_filename := g_build_filename tmpdir pubkey_basename
    match gvm_file_copy env public_key_path new_pubkey_filename st with
    | (false, st) => (false, st)
    | (true, st) =>
      let cmd0 := g_build_filename GVM_DATA_DIR "gvm-lsc-rpm-creator.sh"
      let argv := [cmd0, username, new_pubkey_filename, tmpdir, to_filename]
      let (r, st) := g_spawn_sync env tmpdir argv st
      let success := !(spawn_failed r)
      let (rr, st) := gvm_file_remove_recurse env tmpdir st
      (if rr != 0 && success then false else success, st)

/-- `lsc_user_rpm_recreate`: a key workspace holding `key.pub`, a package
workspace receiving `p.rpm`, the builder, a full read of the package
into memory, then removal of both workspaces (the `rm_exit` and
`free_exit` labels). -/
def lsc_user_rpm_recreate (env : Env) (name public_key : String) (st : St) :
    (Int × Option String) × St :=
  match mkdtemp env st with
  | (none, st) => ((-1, none), st)
  | (some key_dir, st) =>
    let public_key_path := g_build_filename key_dir "key.pub"
    match g_file_set_contents env public_key_path public_key st with
    | (false, st) =>
      let st := (gvm_file_remove_recurse env key_dir st).2
      ((-1, none), st)
    | (true, st) =>
      match mkdtemp env st with
      | (none, st) =>
        let st := (gvm_file_remove_recurse env key_dir st).2
        ((-1, none), st)
      | (some rpm_dir, st) =>
        let rpm_path := g_build_filename rpm_dir "p.rpm"
        match lsc_user_rpm_create env name public_key_path rpm_path st with
        | (false, st) =>
          let st := (gvm_file_remove_recurse env rpm_dir st).2
          let st := (gvm_file_remove_recurse env key_dir st).2
          ((-1, none), st)
        | (true, st) =>
          let (c, st) := g_file_get_contents rpm_path st
          match c with
          | none =>
            let st := (gvm_file_remove_recurse env rpm_dir st).2
            let st := (gvm_file_remove_recurse env key_dir st).2
            ((-1, none), st)
          | some bytes =>
            let st := (gvm_file_remove_recurse env rpm_dir st).2
            let st := (gvm_file_remove_recurse env key_dir st).2
            ((0, some bytes), st)

/-! ## DEB package generation -/

/-- `lsc_user_deb_create`: identical to the RPM builder except for the
creator script and the trailing maintainer argument — including the
missing staging-directory removal when `gvm_file_copy` fails. -/
def lsc_user_deb_create (env : Env)
    (username public_key_path to_filename maintainer : String) (st : St) :
    Bool × St :=
  match mkdtemp env st with
  | (none, st) => (false, st)
  | (some tmpdir, st) =>
    let pubkey_basename := username ++ ".pub"
    let new_pubkey_filename := g_build_filename tmpdir pubkey_basename
    match gvm_file_copy env public_key_path new_pubkey_filename st with
    | (false, st) => (false, st)
    | (true, st) =>
      let cmd0 := g_build_filename GVM_DATA_DIR "gvm-lsc-deb-creator.sh"
      let argv := [cmd0, username, new_pubkey_filename, tmpdir, to_filename, maintainer]
      let (r, st) := g_spawn_sync env tmpdir argv st
      let success := !(spawn_failed r)
      let (rr, st) := gvm_file_remove_recurse env tmpdir st
      (if rr != 0 && success then false else success, st)

/-- `lsc_user_deb_recreate`: same two-workspace composition as the RPM
variant, with destination `p.deb`. -/
def lsc_user_deb_recreate (env : Env) (name public_key maintainer : String)
    (st : St) : (Int × Option String) × St :=
  match mkdtemp env st with
  | (none, st) => ((-1, none), st)
  | (some key_dir, st) =>
    let public_key_path := g_build_filename key_dir "key.pub"
    match g_file_set_contents env public_key_path public_key st with
    | (false, st) =>
      let st := (gvm_file_remove_recurse env key_dir st).2
      ((-1, none), st)
    | (true, st) =>
      match mkdtemp env st with
      | (none, st) =>
        let st := (gvm_file_remove_recurse env key_dir st).2
        ((-1, none), st)
      | (some deb_dir, st) =>
        let deb_path := g_build_filename deb_dir "p.deb"
        match lsc_user_deb_create env name public_key_path deb_path maintainer st with
        | (false, st) =>
          let st := (gvm_file_remove_recurse env deb_dir st).2
          let st := (gvm_file_remove_recurse env key_dir st).2
          ((-1, none), st)
        | (true, st) =>
          let (c, st) := g_file_get_contents deb_path st
          match c with
          | none =>
            let st := (gvm_file_remove_recurse env deb_dir st).2
            let st := (gvm_file_remove_recurse env key_dir st).2
            ((-1, none), st)
          | some bytes =>
            let st := (gvm_file_remove_recurse env deb_dir st).2
            let st := (gvm_file_remove_recurse env key_dir st).2
            ((0, some bytes), st)

/-! ## EXE (NSIS) package generation

The script text is the concatenation of the `fprintf` calls of
`create_nsis_script`, kept as a list of pieces: each format string
contributes its literal parts, and each `%s` argument contributes the
substituted parameter as its own piece (`%%` in a format string prints
one `%`).  Apostrophes in the source text are written `\x27`. -/

def nsis_chunks (package_name user_name password : String) : List String :=
  [ "#Installer filename\n"
  , "outfile "
  , package_name
  , "\n\n"
  , "# Set desktop as install directory\n"
  , "installDir $DESKTOP\n\n"
  , "# Put some text\n"
  , "BrandingText \"GVM Local Security Checks User\"\n\n"
  , "#\n# Default (installer) section.\n#\n"
  , "section\n\n"
  , "# Define output path\n"
  , "setOutPath $INSTDIR\n\n"
  , "# Uninstaller name\n"
  , "writeUninstaller $INSTDIR\\openvas_lsc_remove_"
  , user_name
  , ".exe\n\n"
  , "# Create Thomas Rotters GetAdminGroupName.vb script\n"
  , "ExecWait \"cmd /C Echo Set objWMIService = GetObject($\\\"winmgmts:\\\\.\\root\\cimv2$\\\") > $\\\"%temp%\\GetAdminGroupName.vbs$\\\" \"\n"
  , "ExecWait \"cmd /C Echo Set colAccounts = objWMIService.ExecQuery ($\\\"Select * From Win32_Group Where SID = \x27S-1-5-32-544\x27$\\\")  >> $\\\"%temp%\\GetAdminGroupName.vbs$\\\"\"\n"
  , "ExecWait \"cmd /C Echo For Each objAccount in colAccounts >> $\\\"%temp%\\GetAdminGroupName.vbs$\\\"\"\n"
  , "ExecWait \"cmd /C Echo Wscript.Echo objAccount.Name >> $\\\"%temp%\\GetAdminGroupName.vbs$\\\"\"\n"
  , "ExecWait \"cmd /C Echo Next >> $\\\"%temp%\\GetAdminGroupName.vbs$\\\"\"\n"
  , "ExecWait \"cmd /C cscript //nologo $\\\"%temp%\\GetAdminGroupName.vbs$\\\" > $\\\"%temp%\\AdminGroupName.txt$\\\"\"\n\n"
  , "# Create batch script that installs the user\n"
  , "ExecWait \"cmd /C Echo Set /P AdminGroupName= ^<$\\\"%temp%\\AdminGroupName.txt$\\\" > $\\\"%temp%\\AddUser.bat$\\\"\" \n"
  , "ExecWait \"cmd /C Echo net user "
  , user_name
  , " "
  , password
  , " /add /active:yes >> $\\\"%temp%\\AddUser.bat$\\\"\"\n"
  , "ExecWait \"cmd /C Echo net localgroup %AdminGroupName% %COMPUTERNAME%\\"
  , user_name
  , " /add >> $\\\"%temp%\\AddUser.bat$\\\"\"\n\n"
  , "# Execute AddUser script\n"
  , "ExecWait \"cmd /C $\\\"%temp%\\AddUser.bat$\\\"\"\n\n"
  , "# Remove temporary files for localized admin group names\n"
  , "ExecWait \"del $\\\"%temp%\\AdminGroupName.txt$\\\"\"\n"
  , "ExecWait \"del $\\\"%temp%\\GetAdminGroupName.vbs$\\\"\"\n\n"
  , "ExecWait \"del $\\\"%temp%\\AddUser.bat$\\\"\"\n\n"
  , "# Display message that everything seems to be fine\n"
  , "messageBox MB_OK \"A user has been added. An uninstaller is placed on your Desktop.\"\n\n"
  , "# Default (install) section end\n"
  , "sectionEnd\n\n"
  , "#\n# Uninstaller section.\n#\n"
  , "section \"Uninstall\"\n\n"
  , "# Run cmd to remove user\n"
  , "ExecWait \"net user "
  , user_name
  , " /delete\"\n\n"
  , "# Unistaller should remove itself (from desktop/installdir)\n\n"
  , "# Display message that everything seems to be fine\n"
  , "messageBox MB_OK \"A user has been removed. You can now safely remove the uninstaller from your Desktop.\"\n\n"
  , "# Uninstaller section end\n"
  , "sectionEnd\n\n" ]

/-- Full rendered NSIS script text. -/
def nsis_script_text (package_name user_name password : String) : String :=
  String.join (nsis_chunks package_name user_name password)

/-- `create_nsis_script`: opens `script_name` for writing, renders the
script, and closes the file; either the `fopen` or the `fclose` can
fail, and a `fclose` failure still leaves the written file behind. -/
def create_nsis_script (env : Env)
    (script_name package_name user_name password : String) (st : St) : Int × St :=
  if env.fopenOk script_name then
    let st := { st with
                  fs := st.fs.setFile script_name
                          (nsis_script_text package_name user_name password),
                  trace := Event.fileWrite script_name :: st.trace }
    if env.fcloseOk script_name then (0, st) else (-1, st)
  else (-1, st)

/-- `execute_makensis`: runs `makensis <script>` with the script's
directory as working directory, classified by `spawn_failed`. -/
def execute_makensis (env : Env) (nsis_script : String) (st : St) : Int × St :=
  let dirname := g_path_get_dirname nsis_script
  let (r, st) := g_spawn_sync env dirname ["makensis", nsis_script] st
  if spawn_failed r then (-1, st) else (0, st)

/-- The script path chosen by `lsc_user_exe_create`: `p.nsis` in the
directory of the requested destination. -/
def exe_script_path (to_filename : String) : String :=
  g_build_filename (g_path_get_dirname to_filename) "p.nsis"

/-- `lsc_user_exe_create`: render the script beside the destination, then
compile it. -/
def lsc_user_exe_create (env : Env) (user_name password to_filename : String)
    (st : St) : Int × St :=
  let nsis_script := exe_script_path to_filename
  match create_nsis_script env nsis_script to_filename user_name password st with
  | (r, st) =>
    if r != 0 then (-1, st)
    else
      match execute_makensis env nsis_script st with
      | (r2, st) => if r2 != 0 then (-1, st) else (0, st)

/-- `lsc_user_exe_recreate`: one workspace, destination `<dir>/p.nsis`,
build, read, and unconditional workspace removal (the `rm_exit` label). -/
def lsc_user_exe_recreate (env : Env) (name password : String) (st : St) :
    (Int × Option String) × St :=
  match mkdtemp env st with
  | (none, st) => ((-1, none), st)
  | (some exe_dir, st) =>
    let exe_path := g_build_filename exe_dir "p.nsis"
    match lsc_user_exe_create env name password exe_path st with
    | (r, st) =>
      if r != 0 then
        let st := (gvm_file_remove_recurse env exe_dir st).2
        ((-1, none), st)
      else
        let (c, st) := g_file_get_contents exe_path st
        match c with
        | none =>
          let st := (gvm_file_remove_recurse env exe_dir st).2
          ((-1, none), st)
        | some bytes =>
          let st := (gvm_file_remove_recurse env exe_dir st).2
          ((0, some bytes), st)

/-! ## Stub environments used for concrete runs -/

/-- A spawn outcome of a tool that runs, exits 0, and writes nothing. -/
def okSpawn : SpawnResult := ⟨true, 0, none, some "", some "", []⟩

/-- Environment in which every primitive succeeds, every `mkdtemp` hands
out `/tmp/exe_AAAAAA`, and every external tool exits 0 without creating
any file. -/
def stubEnvNull : Env :=
  { mkdtemp := fun _ => some "/tmp/exe_AAAAAA"
  , mkdirOk := fun _ => true
  , fopenOk := fun _ => true
  , fcloseOk := fun _ => true
  , copyOk := fun _ _ => true
  , setOk := fun _ => true
  , removeOk := fun _ => true
  , spawnCmd := fun _ => okSpawn
  , spawnArgv := fun _ _ => okSpawn }

/-- A stub packaging tool: exits 0 and writes the bytes `b` to the
destination path it receives as its fifth argument. -/
def rtSpawn (b : String) : String → List String → SpawnResult :=
  fun _ a => ⟨true, 0, none, some "", some "", [(a.getD 4 "", b)]⟩

/-- Round-trip environment: fixed fresh directory names, all primitives
succeed, and the packaging tool writes `b` to the destination path. -/
def envRT (b : String) : Env :=
  { stubEnvNull with
      mkdtemp := fun n =>
        if n = 0 then some "/tmp/key_AAAAAA"
        else if n = 1 then some "/tmp/pkg_BBBBBB"
        else some "/tmp/stage_CCCCCC",
      spawnArgv := rtSpawn b }

/-- Same as `envRT`, except that `gvm_file_copy` fails. -/
def envCopyFail : Env := { envRT "X" with copyOk := fun _ _ => false }

/-! ## String helper lemmas -/

/-- The first `n` characters of a string, read from its end. -/
def revPref (s : String) (n : Nat) : List Char := s.data.reverse.take n

theorem ne_of_revPref {n : Nat} {a b : String} (h : revPref a n ≠ revPref b n) :
    a ≠ b :=
  fun he => h (he ▸ rfl)

theorem revPref_build_pub (d s : String) :
    revPref (g_build_filename d (s ++ ".pub")) 2 = ['b', 'u'] := by
  simp only [revPref, g_build_filename, String.data_append, List.reverse_append]
  rfl

theorem revPref_build_keypub (d : String) :
    revPref (g_build_filename d "key.pub") 2 = ['b', 'u'] := by
  simp only [revPref, g_build_filename, String.data_append, List.reverse_append]
  rfl

theorem revPref_build_prpm (d : String) :
    revPref (g_build_filename d "p.rpm") 2 = ['m', 'p'] := by
  simp only [revPref, g_build_filename, String.data_append, List.reverse_append]
  rfl

theorem revPref_build_pdeb (d : String) :
    revPref (g_build_filename d "p.deb") 2 = ['b', 'e'] := by
  simp only [revPref, g_build_filename, String.data_append, List.reverse_append]
  rfl

/-- Appending `/p.nsis` to any directory string and taking the dirname
gives the directory back. -/
theorem dirname_build_pnsis (d : String) :
    g_path_get_dirname (g_build_filename d "p.nsis") = d := by
  obtain ⟨l⟩ := d
  simp only [g_path_get_dirname, g_build_filename, String.data_append,
    List.reverse_append]
  rw [show ∀ r : List Char,
        List.dropWhile (fun c => c != '/')
          ("p.nsis".data.reverse ++ ("/".data.reverse ++ r)) = '/' :: r from
      fun r => rfl]
  simp

/-- The chosen script path always ends in `/p.nsis`. -/
theorem endsWith_build_pnsis (d : String) :
    strEndsWith (g_build_filename d "p.nsis") "/p.nsis" = true := by
  simp only [strEndsWith, g_build_filename, String.data_append, List.reverse_append]
  rw [show ∀ r : List Char,
        leadsWith "/p.nsis".data.reverse
          ("p.nsis".data.reverse ++ ("/".data.reverse ++ r)) = true from
      fun r => rfl]

/-! ## Claim theorems -/

/-- C2 (counterexample): the claim asserts the script file is distinct
from the requested destination path for every destination; at the
destination actually used by `lsc_user_exe_recreate` the script path
*equals* the destination, so the "distinct from" part of the claim is
false at this input. -/
theorem exe_script_path_collides_with_destination :
    exe_script_path "/tmp/exe_AAAAAA/p.nsis" = "/tmp/exe_AAAAAA/p.nsis" := by
  rfl

/-- C2 (amended): for every username, password and destination, the
rendered script is written to `p.nsis` in the destination's directory
and the compiler is invoked on that script file with its working
directory set to the script's directory; the script file is distinct
from the destination whenever the destination does not itself end in
`/p.nsis` (in the recreate pipeline the destination is
`<workspace>/p.nsis`, so the two coincide). -/
theorem exe_script_beside_destination (env : Env) (u w dest : String) (st : St) :
    g_path_get_dirname (exe_script_path dest) = g_path_get_dirname dest
    ∧ (strEndsWith dest "/p.nsis" = false → exe_script_path dest ≠ dest)
    ∧ (env.fopenOk (exe_script_path dest) = true →
       env.fcloseOk (exe_script_path dest) = true →
       (lsc_user_exe_create env u w dest st).2.trace =
         Event.spawn (g_path_get_dirname (exe_script_path dest))
             ["makensis", exe_script_path dest] ::
           Event.fileWrite (exe_script_path dest) :: st.trace) := by
  refine ⟨dirname_build_pnsis (g_path_get_dirname dest), ?_, ?_⟩
  · intro hne heq
    have h := endsWith_build_pnsis (g_path_get_dirname dest)
    rw [exe_script_path] at heq
    rw [heq] at h
    rw [h] at hne
    exact absurd hne (by decide)
  · intro ho hc
    simp only [lsc_user_exe_create, create_nsis_script, execute_makensis,
      g_spawn_sync, ho, if_true, hc]
    cases hsf : spawn_failed (env.spawnArgv (g_path_get_dirname (exe_script_path dest))
        ["makensis", exe_script_path dest]) <;>
      simp [hsf, St.addEvent]

/-- C2 (witness): the amended theorem applied at a concrete destination
whose basename is not `p.nsis`, in the all-success stub environment. -/
theorem exe_script_beside_destination_witness :
    strEndsWith "/tmp/exe_AAAAAA/out.exe" "/p.nsis" = false ∧
    exe_script_path "/tmp/exe_AAAAAA/out.exe" ≠ "/tmp/exe_AAAAAA/out.exe" ∧
    (lsc_user_exe_create stubEnvNull "alice" "pw12345" "/tmp/exe_AAAAAA/out.exe"
        initSt).2.trace =
      Event.spawn (g_path_get_dirname (exe_script_path "/tmp/exe_AAAAAA/out.exe"))
          ["makensis", exe_script_path "/tmp/exe_AAAAAA/out.exe"] ::
        Event.fileWrite (exe_script_path "/tmp/exe_AAAAAA/out.exe") :: [] :=
  ⟨rfl,
   (exe_script_beside_destination stubEnvNull "alice" "pw12345"
       "/tmp/exe_AAAAAA/out.exe" initSt).2.1 rfl,
   (exe_script_beside_destination stubEnvNull "alice" "pw12345"
       "/tmp/exe_AAAAAA/out.exe" initSt).2.2 rfl rfl⟩

/-! ## C3: the installer-script template -/

/-- Fixed chunks of the NSIS template before the package-name slot. -/
def nsisT0 : List String := (nsis_chunks "" "" "").take 2

/-- Fixed chunks between the package-name slot and the first username
slot (`writeUninstaller`). -/
def nsisT1 : List String := ((nsis_chunks "" "" "").drop 3).take 11

/-- Fixed chunks between the first and second username slots. -/
def nsisT2 : List String := ((nsis_chunks "" "" "").drop 15).take 11

/-- The fixed separator between the second username slot and the
password slot (`net user <u> <w>`). -/
def nsisT3 : List String := ((nsis_chunks "" "" "").drop 27).take 1

/-- Fixed chunks between the password slot and the third username slot
(`net localgroup`). -/
def nsisT4 : List String := ((nsis_chunks "" "" "").drop 29).take 2

/-- Fixed chunks between the third and fourth username slots
(`net user <u> /delete`). -/
def nsisT5 : List String := ((nsis_chunks "" "" "").drop 32).take 15

/-- Fixed chunks after the fourth username slot. -/
def nsisT6 : List String := (nsis_chunks "" "" "").drop 48

/-- C3 (counterexample): with marker parameters that occur nowhere in
the fixed template text, the username is substituted four times, not
three as the claim states. -/
theorem nsis_username_not_three_substitutions :
    ¬ (((nsis_chunks "PKGQ" "USRQ" "PWDQ").filter (fun s => s == "USRQ")).length = 3)
    ∧ ((nsis_chunks "PKGQ" "USRQ" "PWDQ").filter (fun s => s == "USRQ")).length = 4 := by
  exact ⟨by decide, by decide⟩

/-- C3 (amended): the rendered script is a fixed template with exactly
six substitution points — one appearance of the destination/package
name, four appearances of the username, and one appearance of the
password — and no others. -/
theorem nsis_script_template :
    (∀ p u w, nsis_chunks p u w =
      nsisT0 ++ p :: (nsisT1 ++ u :: (nsisT2 ++ u :: (nsisT3 ++ w ::
        (nsisT4 ++ u :: (nsisT5 ++ u :: nsisT6))))))
    ∧ ((nsis_chunks "PKGQ" "USRQ" "PWDQ").filter (fun s => s == "PKGQ")).length = 1
    ∧ ((nsis_chunks "PKGQ" "USRQ" "PWDQ").filter (fun s => s == "USRQ")).length = 4
    ∧ ((nsis_chunks "PKGQ" "USRQ" "PWDQ").filter (fun s => s == "PWDQ")).length = 1 := by
  exact ⟨fun p u w => rfl, by decide, by decide, by decide⟩

/-- C7: the shared classification used at every spawn site is success
iff the spawn succeeded, the child terminated normally, and the exit
code is 0; it is a function of the spawn flag and the wait status only
(never of the captured output); and the ssh-keygen and makensis call
sites return 0 exactly when the classification is success. -/
theorem spawn_classification :
    (∀ r : SpawnResult, spawn_failed r = false ↔
        (r.spawned = true ∧ WIFEXITED r.status = true ∧ WEXITSTATUS r.status = 0))
    ∧ (∀ r₁ r₂ : SpawnResult, r₁.spawned = r₂.spawned → r₁.status = r₂.status →
        spawn_failed r₁ = spawn_failed r₂)
    ∧ (∀ (env : Env) (c p path : String) (st : St), c ≠ "" → ¬(p.length < 5) →
        env.mkdirOk (g_path_get_dirname path) = true →
        ((create_ssh_key env c p path st).1 = 0 ↔
          spawn_failed (env.spawnCmd (ssh_keygen_command path c p)) = false))
    ∧ (∀ (env : Env) (script : String) (st : St),
        (execute_makensis env script st).1 = 0 ↔
          spawn_failed (env.spawnArgv (g_path_get_dirname script)
            ["makensis", script]) = false) := by
  refine ⟨?_, ?_, ?_, ?_⟩
  · intro r
    obtain ⟨sp, stt, em, o, e, w⟩ := r
    cases sp <;> simp [spawn_failed, exitStatusOf, bne]
  · intro r₁ r₂ hs hst
    obtain ⟨sp₁, st₁, _, _, _, _⟩ := r₁
    obtain ⟨sp₂, st₂, _, _, _, _⟩ := r₂
    simp only at hs hst
    subst hs; subst hst; rfl
  · intro env c p path st hc hp hm
    simp only [create_ssh_key, if_neg hc, if_neg hp, hm, Bool.not_true,
      Bool.false_eq_true, if_false, g_spawn_command_line_sync]
    cases hsf : spawn_failed (env.spawnCmd (ssh_keygen_command path c p)) <;>
      simp [hsf]
  · intro env script st
    simp only [execute_makensis, g_spawn_sync]
    cases hsf : spawn_failed (env.spawnArgv (g_path_get_dirname script)
        ["makensis", script]) <;> simp [hsf]

/-- C7 (witness): the classification theorem instantiated at concrete
spawn results — a child killed before exiting normally (raw status 256
keeps `WEXITSTATUS` = 1, so classified failure), output-independence at
two results differing only in captured stdout, and the ssh-keygen call
site in the all-success stub environment. -/
theorem spawn_classification_witness :
    spawn_failed ⟨true, 256, none, none, none, []⟩ = true
    ∧ spawn_failed ⟨true, 0, none, some "x", none, []⟩ =
        spawn_failed ⟨true, 0, none, some "y", none, []⟩
    ∧ (create_ssh_key stubEnvNull "c" "abcde" "/tmp/k/key" initSt).1 = 0 := by
  refine ⟨?_, spawn_classification.2.1 _ _ rfl rfl, ?_⟩
  · by_contra hne
    have hf : spawn_failed ⟨true, 256, none, none, none, []⟩ = false := by
      cases hx : spawn_failed ⟨true, 256, none, none, none, []⟩
      · rfl
      · exact absurd hx hne
    have h := (spawn_classification.1 ⟨true, 256, none, none, none, []⟩).mp hf
    exact absurd h.2.2 (by decide)
  · exact (spawn_classification.2.2.1 stubEnvNull "c" "abcde" "/tmp/k/key" initSt
      (by decide) (by decide) rfl).mpr (by decide)

/-- C6: a passphrase shorter than 5 characters makes `create_ssh_key`
fail before performing any external action (the trace is untouched —
no mkdir, no spawn), and `lsc_user_keys_create` then fails with no
spawn of any kind in its trace; a passphrase of length at least 5
passes the check, and (with a valid comment and key directory) the
ssh-keygen invocation is reached. -/
theorem create_ssh_key_passphrase_gate :
    (∀ (env : Env) (c p path : String) (st : St), p.length < 5 →
        (create_ssh_key env c p path st).1 = -1 ∧
        (create_ssh_key env c p path st).2.trace = st.trace)
    ∧ (∀ (env : Env) (c p path : String) (st : St), c ≠ "" → ¬(p.length < 5) →
        env.mkdirOk (g_path_get_dirname path) = true →
        (create_ssh_key env c p path st).2.trace =
          Event.spawnCmd (ssh_keygen_command path c p) ::
            Event.mkdirP (g_path_get_dirname path) :: st.trace)
    ∧ (∀ (env : Env) (p : String), p.length < 5 →
        (lsc_user_keys_create env p initSt).1 = (-1, none) ∧
        (∀ s, Event.spawnCmd s ∉ (lsc_user_keys_create env p initSt).2.trace) ∧
        (∀ cw a, Event.spawn cw a ∉ (lsc_user_keys_create env p initSt).2.trace)) := by
  refine ⟨?_, ?_, ?_⟩
  · intro env c p path st hp
    by_cases hc : c = "" <;> simp [create_ssh_key, hc, if_pos hp, St.logAdd]
  · intro env c p path st hc hp hm
    simp only [create_ssh_key, if_neg hc, if_neg hp, hm, Bool.not_true,
      Bool.false_eq_true, if_false, g_spawn_command_line_sync]
    cases hsf : spawn_failed (env.spawnCmd (ssh_keygen_command path c p)) <;>
      simp [hsf, St.addEvent, St.logAdd]
  · intro env p hp
    cases hd : env.mkdtemp 0 with
    | none =>
        simp [lsc_user_keys_create, mkdtemp, initSt, hd]
    | some d =>
        cases hrm : env.removeOk d <;>
          simp [lsc_user_keys_create, mkdtemp, initSt, hd, create_ssh_key,
            if_pos hp, gvm_file_remove_recurse, St.logAdd, hrm]

/-- C6 (witness): the gate theorem applied at a four-character
passphrase in the all-success stub environment. -/
theorem create_ssh_key_passphrase_gate_witness :
    (("pw12" : String).length < 5)
    ∧ (create_ssh_key stubEnvNull "c" "pw12" "/tmp/k/key" initSt).1 = -1
    ∧ (create_ssh_key stubEnvNull "c" "pw12" "/tmp/k/key" initSt).2.trace = []
    ∧ (lsc_user_keys_create stubEnvNull "pw12" initSt).1 = (-1, none) :=
  ⟨by decide,
   (create_ssh_key_passphrase_gate.1 stubEnvNull "c" "pw12" "/tmp/k/key" initSt
     (by decide)).1,
   (create_ssh_key_passphrase_gate.1 stubEnvNull "c" "pw12" "/tmp/k/key" initSt
     (by decide)).2,
   (create_ssh_key_passphrase_gate.2.2 stubEnvNull "pw12" (by decide)).1⟩

/-- C9: the diagnostic log of the key-generation invocation never
contains the passphrase — for any two valid passphrases whose command
lines the external tool answers identically, the logs (and results) of
the two runs are identical, even though the passphrase appears in the
spawned command line. -/
theorem create_ssh_key_log_noninterference
    (env : Env) (c path p₁ p₂ : String) (st : St) :
    ¬(p₁.length < 5) → ¬(p₂.length < 5) →
    env.spawnCmd (ssh_keygen_command path c p₁) =
      env.spawnCmd (ssh_keygen_command path c p₂) →
    (create_ssh_key env c p₁ path st).2.log =
      (create_ssh_key env c p₂ path st).2.log ∧
    (create_ssh_key env c p₁ path st).1 = (create_ssh_key env c p₂ path st).1 := by
  intro h₁ h₂ heq
  by_cases hc : c = ""
  · simp [create_ssh_key, hc]
  · simp only [create_ssh_key, if_neg hc, if_neg h₁, if_neg h₂,
      g_spawn_command_line_sync]
    by_cases hm : env.mkdirOk (g_path_get_dirname path)
    · simp only [hm, Bool.not_true, Bool.false_eq_true, if_false, heq]
      cases hsf : spawn_failed (env.spawnCmd (ssh_keygen_command path c p₂)) <;>
        simp [hsf, St.logAdd, St.addEvent]
    · simp only [Bool.not_eq_true] at hm
      simp [hm]

/-- C9 (witness): two different five-character passphrases in the stub
environment (whose tool behaves identically on every command line)
produce identical logs. -/
theorem create_ssh_key_log_noninterference_witness :
    (create_ssh_key stubEnvNull "c" "abcde" "/tmp/k/key" initSt).2.log =
      (create_ssh_key stubEnvNull "c" "edcba" "/tmp/k/key" initSt).2.log :=
  (create_ssh_key_log_noninterference stubEnvNull "c" "/tmp/k/key" "abcde" "edcba"
    initSt (by decide) (by decide) rfl).1

/-- C10: with a password shorter than 5 characters,
`lsc_user_keys_create` still creates its key workspace first, then
removes it and returns -1 (the passphrase check happens only inside
`create_ssh_key`, after `mkdtemp` succeeded); when `mkdtemp` itself
fails, it returns -1 without inspecting the password at all (the same
result and empty trace for every password). -/
theorem keys_create_short_password_flow (env : Env) :
    (∀ (p d : String), p.length < 5 → env.mkdtemp 0 = some d →
        (lsc_user_keys_create env p initSt).1 = (-1, none) ∧
        (lsc_user_keys_create env p initSt).2.trace =
          [Event.rmRecurse d, Event.mkdtempOk d])
    ∧ (env.mkdtemp 0 = none →
        ∀ p : String, (lsc_user_keys_create env p initSt).1 = (-1, none) ∧
          (lsc_user_keys_create env p initSt).2.trace = []) := by
  constructor
  · intro p d hp hd
    simp only [lsc_user_keys_create, mkdtemp, initSt, hd]
    simp only [create_ssh_key, if_pos hp]
    by_cases hc : ("Key generated by GVM" : String) = ""
    · exact absurd hc (by decide)
    · simp only [if_neg hc, gvm_file_remove_recurse, St.logAdd]
      cases hrm : env.removeOk d <;> simp [hrm]
  · intro hd p
    simp [lsc_user_keys_create, mkdtemp, initSt, hd]

/-- C10 (witness): the flow theorem at the concrete password `"pw"` in
the stub environment handing out `/tmp/exe_AAAAAA`, and in an
environment whose `mkdtemp` fails. -/
theorem keys_create_short_password_flow_witness :
    (lsc_user_keys_create stubEnvNull "pw" initSt).1 = (-1, none)
    ∧ (lsc_user_keys_create stubEnvNull "pw" initSt).2.trace =
        [Event.rmRecurse "/tmp/exe_AAAAAA", Event.mkdtempOk "/tmp/exe_AAAAAA"]
    ∧ (lsc_user_keys_create
        { stubEnvNull with mkdtemp := fun _ => none } "pw" initSt).1 = (-1, none) :=
  ⟨((keys_create_short_password_flow stubEnvNull).1 "pw" "/tmp/exe_AAAAAA"
      (by decide) rfl).1,
   ((keys_create_short_password_flow stubEnvNull).1 "pw" "/tmp/exe_AAAAAA"
      (by decide) rfl).2,
   ((keys_create_short_password_flow
      { stubEnvNull with mkdtemp := fun _ => none }).2 rfl "pw").1⟩

/-- C5: run of `lsc_user_rpm_recreate` in which `gvm_file_copy` fails.
The RPM builder's early return skips the removal of its freshly created
staging workspace, so `/tmp/stage_CCCCCC` is created, never passed to
`gvm_file_remove_recurse`, and still exists on disk after the
operation returns — while the key and package workspaces are removed
as usual. -/
theorem rpm_recreate_staging_workspace_leak :
    (lsc_user_rpm_recreate envCopyFail "alice" "PUBKEY" initSt).1 = (-1, none)
    ∧ Event.mkdtempOk "/tmp/stage_CCCCCC" ∈
        (lsc_user_rpm_recreate envCopyFail "alice" "PUBKEY" initSt).2.trace
    ∧ Event.rmRecurse "/tmp/stage_CCCCCC" ∉
        (lsc_user_rpm_recreate envCopyFail "alice" "PUBKEY" initSt).2.trace
    ∧ "/tmp/stage_CCCCCC" ∈
        (lsc_user_rpm_recreate envCopyFail "alice" "PUBKEY" initSt).2.fs.dirs
    ∧ Event.rmRecurse "/tmp/pkg_BBBBBB" ∈
        (lsc_user_rpm_recreate envCopyFail "alice" "PUBKEY" initSt).2.trace
    ∧ Event.rmRecurse "/tmp/key_AAAAAA" ∈
        (lsc_user_rpm_recreate envCopyFail "alice" "PUBKEY" initSt).2.trace := by
  decide

/-- C8: run of `lsc_user_deb_recreate` in which `gvm_file_copy` fails.
The DEB builder's staging workspace is created exactly once but its
destruction is attempted zero times — not "exactly once per created
workspace regardless of prior failures". -/
theorem deb_recreate_staging_destroy_not_once :
    (lsc_user_deb_recreate envCopyFail "alice" "PUBKEY" "ops@example.com" initSt).1
      = (-1, none)
    ∧ ((lsc_user_deb_recreate envCopyFail "alice" "PUBKEY" "ops@example.com"
          initSt).2.trace.filter
        (fun e => decide (e = Event.mkdtempOk "/tmp/stage_CCCCCC"))).length = 1
    ∧ ((lsc_user_deb_recreate envCopyFail "alice" "PUBKEY" "ops@example.com"
          initSt).2.trace.filter
        (fun e => decide (e = Event.rmRecurse "/tmp/stage_CCCCCC"))).length = 0
    ∧ "/tmp/stage_CCCCCC" ∈
        (lsc_user_deb_recreate envCopyFail "alice" "PUBKEY" "ops@example.com"
          initSt).2.fs.dirs := by
  decide

/-- C1 (counterexample): in the EXE pipeline, a tool invocation that is
classified as success but creates no file at all does *not* make
`lsc_user_exe_recreate` fail: because the script file is written at
the destination path itself, the read succeeds and the operation
returns 0 with the rendered installer script as the artifact bytes. -/
theorem exe_recreate_false_success_on_missing_output :
    spawn_failed (stubEnvNull.spawnArgv "/tmp/exe_AAAAAA"
        ["makensis", "/tmp/exe_AAAAAA/p.nsis"]) = false
    ∧ (stubEnvNull.spawnArgv "/tmp/exe_AAAAAA"
        ["makensis", "/tmp/exe_AAAAAA/p.nsis"]).writes = []
    ∧ (lsc_user_exe_recreate stubEnvNull "alice" "pw12345" initSt).1.1 = 0
    ∧ (lsc_user_exe_recreate stubEnvNull "alice" "pw12345" initSt).1.2 =
        some (nsis_script_text "/tmp/exe_AAAAAA/p.nsis" "alice" "pw12345") := by
  refine ⟨rfl, rfl, rfl, rfl⟩

/-- A lookup that fails on a list also fails on any filtered sublist. -/
theorem lookupFileAux_filter_none (l : List (String × String))
    (q : String × String → Bool) (p : String)
    (h : lookupFileAux l p = none) : lookupFileAux (l.filter q) p = none := by
  induction l with
  | nil => rfl
  | cons a t ih =>
    obtain ⟨a1, a2⟩ := a
    rw [lookupFileAux] at h
    by_cases hap : a1 = p
    · rw [if_pos hap] at h
      exact absurd h (by simp)
    · rw [if_neg hap] at h
      rw [List.filter_cons]
      cases hq : q (a1, a2)
      · rw [if_neg (by decide : ¬(false = true))]
        exact ih h
      · rw [if_pos (rfl : true = true), lookupFileAux, if_neg hap]
        exact ih h

/-- In the staged file list of a builder workspace (the staged public
key and the written `key.pub`), no path can be the RPM destination
`<dir>/p.rpm`, whatever filtering a directory removal applied. -/
theorem lookup_staged_none_rpm (q : String × String → Bool)
    (td kd rd name pk : String) :
    lookupFileAux (List.filter q
      [(g_build_filename td (name ++ ".pub"), pk),
       (g_build_filename kd "key.pub", pk)])
      (g_build_filename rd "p.rpm") = none := by
  have h1 : g_build_filename td (name ++ ".pub") ≠ g_build_filename rd "p.rpm" :=
    ne_of_revPref (by rw [revPref_build_pub, revPref_build_prpm]; decide)
  have h2 : g_build_filename kd "key.pub" ≠ g_build_filename rd "p.rpm" :=
    ne_of_revPref (by rw [revPref_build_keypub, revPref_build_prpm]; decide)
  exact lookupFileAux_filter_none _ _ _ (by simp [lookupFileAux, h1, h2])

/-- Same for the DEB destination `<dir>/p.deb`. -/
theorem lookup_staged_none_deb (q : String × String → Bool)
    (td kd rd name pk : String) :
    lookupFileAux (List.filter q
      [(g_build_filename td (name ++ ".pub"), pk),
       (g_build_filename kd "key.pub", pk)])
      (g_build_filename rd "p.deb") = none := by
  have h1 : g_build_filename td (name ++ ".pub") ≠ g_build_filename rd "p.deb" :=
    ne_of_revPref (by rw [revPref_build_pub, revPref_build_pdeb]; decide)
  have h2 : g_build_filename kd "key.pub" ≠ g_build_filename rd "p.deb" :=
    ne_of_revPref (by rw [revPref_build_keypub, revPref_build_pdeb]; decide)
  exact lookupFileAux_filter_none _ _ _ (by simp [lookupFileAux, h1, h2])

/-- C1 (amended, proved for the RPM and DEB operations): when the
external tool writes no file at all — in particular when it is a stub
that exits 0 without creating the expected output — the RPM and DEB
recreate operations fail with -1 and no artifact, for every outcome of
every other primitive.  (For the EXE operation the analogous statement
is false: see the counterexample.) -/
theorem rpm_deb_recreate_no_output_is_failure
    (env : Env) (name pk mnt : String)
    (hw : ∀ (cw : String) (a : List String), (env.spawnArgv cw a).writes = []) :
    (lsc_user_rpm_recreate env name pk initSt).1 = (-1, none)
    ∧ (lsc_user_deb_recreate env name pk mnt initSt).1 = (-1, none) := by
  constructor
  · simp only [lsc_user_rpm_recreate, mkdtemp, initSt]
    cases h0 : env.mkdtemp 0 with
    | none => rfl
    | some kd =>
      simp only [g_file_set_contents]
      by_cases hset : env.setOk (g_build_filename kd "key.pub")
      · simp only [hset, if_true]
        cases h1 : env.mkdtemp 1 with
        | none => rfl
        | some rd =>
          simp only [lsc_user_rpm_create, mkdtemp]
          cases h2 : env.mkdtemp 2 with
          | none => rfl
          | some td =>
            simp only [gvm_file_copy, FS.lookupFile, FS.setFile, lookupFileAux,
              if_pos rfl]
            by_cases hcopy : env.copyOk (g_build_filename kd "key.pub")
                (g_build_filename td (name ++ ".pub"))
            · simp only [hcopy, if_true, g_spawn_sync, hw, List.foldl]
              cases hsf : spawn_failed (env.spawnArgv td
                  [g_build_filename GVM_DATA_DIR "gvm-lsc-rpm-creator.sh", name,
                   g_build_filename td (name ++ ".pub"), td,
                   g_build_filename rd "p.rpm"]) <;>
                cases hrm : env.removeOk td <;>
                  simp [hsf, hrm, gvm_file_remove_recurse, g_file_get_contents,
                    FS.lookupFile, FS.removeRecurse, lookup_staged_none_rpm]
            · simp [hcopy]
      · simp [hset]
  · simp only [lsc_user_deb_recreate, mkdtemp, initSt]
    cases h0 : env.mkdtemp 0 with
    | none => rfl
    | some kd =>
      simp only [g_file_set_contents]
      by_cases hset : env.setOk (g_build_filename kd "key.pub")
      · simp only [hset, if_true]
        cases h1 : env.mkdtemp 1 with
        | none => rfl
        | some rd =>
          simp only [lsc_user_deb_create, mkdtemp]
          cases h2 : env.mkdtemp 2 with
          | none => rfl
          | some td =>
            simp only [gvm_file_copy, FS.lookupFile, FS.setFile, lookupFileAux,
              if_pos rfl]
            by_cases hcopy : env.copyOk (g_build_filename kd "key.pub")
                (g_build_filename td (name ++ ".pub"))
            · simp only [hcopy, if_true, g_spawn_sync, hw, List.foldl]
              cases hsf : spawn_failed (env.spawnArgv td
                  [g_build_filename GVM_DATA_DIR "gvm-lsc-deb-creator.sh", name,
                   g_build_filename td (name ++ ".pub"), td,
                   g_build_filename rd "p.deb", mnt]) <;>
                cases hrm : env.removeOk td <;>
                  simp [hsf, hrm, gvm_file_remove_recurse, g_file_get_contents,
                    FS.lookupFile, FS.removeRecurse, lookup_staged_none_deb]
            · simp [hcopy]
      · simp [hset]

/-- C1 (witness): the amended theorem applied to the stub environment
whose tool exits 0 and writes nothing. -/
theorem rpm_deb_recreate_no_output_is_failure_witness :
    (lsc_user_rpm_recreate stubEnvNull "alice" "PUBKEY" initSt).1 = (-1, none)
    ∧ (lsc_user_deb_recreate stubEnvNull "alice" "PUBKEY" "ops@example.com"
        initSt).1 = (-1, none) :=
  rpm_deb_recreate_no_output_is_failure stubEnvNull "alice" "PUBKEY"
    "ops@example.com" (fun _ _ => rfl)

/-- C4 (counterexample): a stub tool that writes a zero-length file to
the destination path makes `lsc_user_rpm_recreate` return 0 with a
zero-length artifact — the zero-length produced file *is* returned to
the caller as a success. -/
theorem rpm_recreate_zero_length_is_success :
    (lsc_user_rpm_recreate (envRT "") "alice" "PUBKEY" initSt).1 = (0, some "") := by
  decide

/-- Keeping the head of a filtered file list: a lookup of the head key
finds the head value when the filter keeps it. -/
theorem lookupFileAux_filter_cons_self (q : String × String → Bool)
    (P b : String) (rest : List (String × String)) (hq : q (P, b) = true) :
    lookupFileAux (List.filter q ((P, b) :: rest)) P = some b := by
  rw [List.filter_cons, hq, if_pos (rfl : true = true), lookupFileAux, if_pos rfl]

/-- C4 (amended): every top-level operation ends in exactly one of two
states — success (0) with an artifact, or failure (-1) with no
artifact; and on success the artifact is byte-for-byte the contents of
the produced destination file: a stub tool writing bytes `b` (for any
`b`, including the empty string) yields exactly `b`.  A *zero-length*
produced file is therefore returned as a success with size 0, contrary
to the original claim (see the counterexample). -/
theorem recreate_definite_outcome (env : Env) (pw name pk mnt : String) :
    (((lsc_user_keys_create env pw initSt).1.1 = 0 ∧
        (lsc_user_keys_create env pw initSt).1.2 ≠ none) ∨
      ((lsc_user_keys_create env pw initSt).1.1 = -1 ∧
        (lsc_user_keys_create env pw initSt).1.2 = none))
    ∧ (((lsc_user_rpm_recreate env name pk initSt).1.1 = 0 ∧
        (lsc_user_rpm_recreate env name pk initSt).1.2 ≠ none) ∨
      ((lsc_user_rpm_recreate env name pk initSt).1.1 = -1 ∧
        (lsc_user_rpm_recreate env name pk initSt).1.2 = none))
    ∧ (((lsc_user_deb_recreate env name pk mnt initSt).1.1 = 0 ∧
        (lsc_user_deb_recreate env name pk mnt initSt).1.2 ≠ none) ∨
      ((lsc_user_deb_recreate env name pk mnt initSt).1.1 = -1 ∧
        (lsc_user_deb_recreate env name pk mnt initSt).1.2 = none))
    ∧ (((lsc_user_exe_recreate env name pw initSt).1.1 = 0 ∧
        (lsc_user_exe_recreate env name pw initSt).1.2 ≠ none) ∨
      ((lsc_user_exe_recreate env name pw initSt).1.1 = -1 ∧
        (lsc_user_exe_recreate env name pw initSt).1.2 = none))
    ∧ (∀ (b kd rd td : String),
        env.mkdtemp 0 = some kd → env.mkdtemp 1 = some rd →
        env.mkdtemp 2 = some td →
        env.setOk (g_build_filename kd "key.pub") = true →
        env.copyOk (g_build_filename kd "key.pub")
          (g_build_filename td (name ++ ".pub")) = true →
        env.removeOk td = true →
        (∀ (cw : String) (a : List String), env.spawnArgv cw a =
          ⟨true, 0, none, some "", some "", [(a.getD 4 "", b)]⟩) →
        leadsWith ((td ++ "/") : String).data
          (g_build_filename rd "p.rpm").data = false →
        (lsc_user_rpm_recreate env name pk initSt).1 = (0, some b)) := by
  refine ⟨?_, ?_, ?_, ?_, ?_⟩
  · simp only [lsc_user_keys_create]
    rcases hmk : mkdtemp env initSt with ⟨o, st0⟩
    cases o with
    | none => simp
    | some d =>
      rcases hck : create_ssh_key env "Key generated by GVM" pw
          (g_build_filename d "key") st0 with ⟨r, st1⟩
      by_cases hb : r = 0
      · subst hb
        simp only [hck]
        rcases hgc : g_file_get_contents (g_build_filename d "key") st1 with ⟨c, st2⟩
        cases c with
        | none => simp [hgc]
        | some k => simp [hgc]
      · simp [hck, hb]
  · simp only [lsc_user_rpm_recreate]
    rcases hmk : mkdtemp env initSt with ⟨o, st0⟩
    cases o with
    | none => simp
    | some kd =>
      rcases hsc : g_file_set_contents env (g_build_filename kd "key.pub") pk st0
        with ⟨sres, st1⟩
      cases sres with
      | false => simp [hsc]
      | true =>
        rcases hmk2 : mkdtemp env st1 with ⟨o2, st2⟩
        cases o2 with
        | none => simp [hsc, hmk2]
        | some rd =>
          rcases hbl : lsc_user_rpm_create env name (g_build_filename kd "key.pub")
              (g_build_filename rd "p.rpm") st2 with ⟨bres, st3⟩
          cases bres with
          | false => simp [hsc, hmk2, hbl]
          | true =>
            rcases hgc : g_file_get_contents (g_build_filename rd "p.rpm") st3
              with ⟨c, st4⟩
            cases c with
            | none => simp [hsc, hmk2, hbl, hgc]
            | some bytes => simp [hsc, hmk2, hbl, hgc]
  · simp only [lsc_user_deb_recreate]
    rcases hmk : mkdtemp env initSt with ⟨o, st0⟩
    cases o with
    | none => simp
    | some kd =>
      rcases hsc : g_file_set_contents env (g_build_filename kd "key.pub") pk st0
        with ⟨sres, st1⟩
      cases sres with
      | false => simp [hsc]
      | true =>
        rcases hmk2 : mkdtemp env st1 with ⟨o2, st2⟩
        cases o2 with
        | none => simp [hsc, hmk2]
        | some rd =>
          rcases hbl : lsc_user_deb_create env name (g_build_filename kd "key.pub")
              (g_build_filename rd "p.deb") mnt st2 with ⟨bres, st3⟩
          cases bres with
          | false => simp [hsc, hmk2, hbl]
          | true =>
            rcases hgc : g_file_get_contents (g_build_filename rd "p.deb") st3
              with ⟨c, st4⟩
            cases c with
            | none => simp [hsc, hmk2, hbl, hgc]
            | some bytes => simp [hsc, hmk2, hbl, hgc]
  · simp only [lsc_user_exe_recreate]
    rcases hmk : mkdtemp env initSt with ⟨o, st0⟩
    cases o with
    | none => simp
    | some d =>
      rcases hxc : lsc_user_exe_create env name pw (g_build_filename d "p.nsis") st0
        with ⟨r, st1⟩
      by_cases hb : r = 0
      · subst hb
        simp only [hxc]
        rcases hgc : g_file_get_contents (g_build_filename d "p.nsis") st1
          with ⟨c, st2⟩
        cases c with
        | none => simp [hgc]
        | some bytes => simp [hgc]
      · simp [hxc, hb]
  · intro b kd rd td h0 h1 h2 hset hcopy hrm hspawn hfresh
    have hok : ∀ (em o e : Option String) (w : List (String × String)),
        spawn_failed ⟨true, 0, em, o, e, w⟩ = false := by
      intro em o e w
      simp [spawn_failed, exitStatusOf, WIFEXITED, WEXITSTATUS]
    simp only [lsc_user_rpm_recreate, lsc_user_rpm_create, mkdtemp, initSt, h0,
      h1, h2, g_file_set_contents, hset, if_true, gvm_file_copy, FS.lookupFile,
      FS.setFile, lookupFileAux, if_pos rfl, hcopy, g_spawn_sync, hspawn,
      List.foldl]
    simp [hok, hrm, gvm_file_remove_recurse, g_file_get_contents, FS.lookupFile,
      FS.removeRecurse, FS.setFile, List.getD]
    rw [lookupFileAux_filter_cons_self _ _ _ _
      (by have h := hfresh; simp at h ⊢; exact h)]

/-- C4 (witness): the round-trip part of the theorem applied to the
stub environment that writes `"RPMDATA"` to the destination path: the
caller receives exactly those bytes with return code 0. -/
theorem recreate_definite_outcome_witness :
    (lsc_user_rpm_recreate (envRT "RPMDATA") "alice" "PUBKEY" initSt).1 =
      (0, some "RPMDATA") :=
  (recreate_definite_outcome (envRT "RPMDATA") "pw" "alice" "PUBKEY" "m").2.2.2.2
    "RPMDATA" "/tmp/key_AAAAAA" "/tmp/pkg_BBBBBB" "/tmp/stage_CCCCCC"
    rfl rfl rfl rfl rfl rfl (fun _ _ => rfl) (by decide)

end GvmdLsc
